import Mathlib

/-!
Shallow embedding of `src/napari_update_checker/qt_update_checker.py`.

Python strings are modelled as `List Char`; `packaging.version.parse` is
modelled on the release-only subset of PEP 440 (optional leading "v",
dot-separated decimal components, comparison with zero padding); dates are
modelled as day numbers (`Int`), with the external `date.fromisoformat` /
`date.isoformat` pair abstracted into whether a file's content parses and
to which day.  Network fetches are passed in as `Except` values; the
uncaught Python exceptions of `get_latest_version` are made explicit in
its result record.
-/

namespace UpdateChecker

/-- Python strings, as character lists. -/
abbrev Str := List Char

/-- The numeric value of a decimal digit character, `none` otherwise. -/
def digitVal (c : Char) : Option Nat :=
  if c.isDigit then some (c.toNat - 48) else none

/-- Parse a nonempty all-digit string as a natural number
(the behaviour of `int(...)` on a version component). -/
def parseNat (s : Str) : Option Nat :=
  match s.mapM digitVal with
  | none => none
  | some [] => none
  | some ds => some (ds.foldl (fun a d => a * 10 + d) 0)

/-- Split a string on the dot character (Python `s.split('.')`). -/
def splitDots : Str → List Str
  | [] => [[]]
  | c :: rest =>
    if c = '.' then [] :: splitDots rest
    else
      match splitDots rest with
      | [] => [[c]]
      | p :: ps => (c :: p) :: ps

/-- `version[1:]` applied when `version.startswith('v')` (line 42-43 of the
source, and the optional leading "v" of PEP 440). -/
def stripV (s : Str) : Str :=
  match s with
  | [] => []
  | c :: rest => if c = 'v' then rest else c :: rest

/-- A parsed version: the release tuple of PEP 440. -/
abbrev Version := List Nat

/-- `packaging.version.parse`, restricted to release-only versions: an
optional leading "v" is stripped, then every dot-separated component must
be a nonempty digit string.  `none` models `InvalidVersion` being raised. -/
def parseVersion (s : Str) : Option Version :=
  (splitDots (stripV s)).mapM parseNat

/-- Comparison of a release tuple against an exhausted one (which is
padded with zeros): equal when all components are zero, greater
otherwise. -/
def cmpNil (a : Version) : Ordering :=
  if a.all (fun x => x = 0) then .eq else .gt

/-- PEP 440 release comparison: componentwise, with the shorter tuple
padded with zeros. -/
def relCmp : Version → Version → Ordering
  | [], b => (cmpNil b).swap
  | a :: as, [] => cmpNil (a :: as)
  | a :: as, b :: bs =>
    if a < b then .lt else if b < a then .gt else relCmp as bs

/-- The `>` of `packaging.version.Version`. -/
def versionGt (a b : Version) : Bool := relCmp a b = .gt

/-- Processing step of `github_tags` (lines 38-47): keep the truthy
`name` fields, strip a leading "v" from each, and reverse the list. -/
def github_tags_process (data : List (Option Str)) : List Str :=
  ((((data.filterMap id).filter (fun s => !s.isEmpty)).map stripV)).reverse

/-- Processing step of `conda_forge_releases` (line 55):
`data.get('versions', [])`. -/
def conda_forge_releases_process (versionsField : Option (List Str)) : List Str :=
  versionsField.getD []

/-- The network-layer exceptions caught by `get_latest_version`. -/
inductive NetErr
  | httpError
  | urlError
  deriving DecidableEq

/-- Python exceptions that escape `get_latest_version` uncaught. -/
inductive PyErr
  | indexError
  | invalidVersion
  deriving DecidableEq

/-- Which catalog a yielded version value was taken from: `latest_tag`
comes from `github_tags`, `latest_version` from `conda_forge_releases`. -/
inductive Source
  | github
  | condaForge
  deriving DecidableEq

/-- Observable outcome of one run of `get_latest_version`: how many
`show_warning` calls it made, how many version comparisons it performed,
the value it yielded (tagged with the variable's source), and the
uncaught exception it raised, if any. -/
structure GLVOutcome where
  warnings : Nat
  comparisons : Nat
  yielded : Option (Source × Version)
  raised : Option PyErr
  deriving DecidableEq

/-- `get_latest_version` (lines 59-79).  The two fetch results stand for
`tags.result()` and `cf.result()`; an `HTTPError`/`URLError` from either
is caught and turned into a single warning.  In the body,
`cf_versions[-1]` is evaluated and parsed first, then `gh_tags[-1]`;
`[-1]` on an empty list raises `IndexError`, an unparseable string raises
`InvalidVersion`, both uncaught. -/
def get_latest_version (ghResult cfResult : Except NetErr (List Str)) :
    GLVOutcome :=
  match ghResult, cfResult with
  | .error _, _ => ⟨1, 0, none, none⟩
  | .ok _, .error _ => ⟨1, 0, none, none⟩
  | .ok gh_tags, .ok cf_versions =>
    match cf_versions.getLast? with
    | none => ⟨0, 0, none, some .indexError⟩
    | some cfLast =>
      match parseVersion cfLast with
      | none => ⟨0, 0, none, some .invalidVersion⟩
      | some latest_version =>
        match gh_tags.getLast? with
        | none => ⟨0, 0, none, some .indexError⟩
        | some ghLast =>
          match parseVersion ghLast with
          | none => ⟨0, 0, none, some .invalidVersion⟩
          | some latest_tag =>
            if versionGt latest_version latest_tag then
              ⟨0, 1, some (.condaForge, latest_version), none⟩
            else
              ⟨0, 1, some (.github, latest_tag), none⟩

/-- `IGNORE_DAYS = 21`. -/
def IGNORE_DAYS : Int := 21

/-- A day number; `today - old` is `(date.today() - old_date).days`. -/
abbrev Date := Int

/-- The content of the ignore file, as seen through
`date.fromisoformat`: either it parses to a day, or parsing raises
`ValueError` (`corrupt`). -/
inductive FileContent
  | parseable (d : Date)
  | corrupt
  deriving DecidableEq

/-- The mutable state `_check_time` and `show_version_info` touch:
`self._snoozed` and the ignore file (absent = `none`). -/
structure CheckerState where
  snoozed : Bool
  file : Option FileContent
  deriving DecidableEq

/-- `UpdateChecker._check_time` (lines 115-132).  If the file exists and
its date parses: `_snoozed` is set to whether the age is under
`IGNORE_DAYS`; under the window the method returns `True` with the file
kept, otherwise execution falls past the `with` block, removes the file
and returns `False`.  A `ValueError` from parsing is suppressed, so the
file is removed and `False` returned with `_snoozed` untouched.  An
absent file returns `False` with nothing touched. -/
def check_time (today : Date) (st : CheckerState) : Bool × CheckerState :=
  match st.file with
  | none => (false, st)
  | some .corrupt => (false, { st with file := none })
  | some (.parseable old) =>
    if today - old < IGNORE_DAYS then
      (true, { st with snoozed := true })
    else
      (false, { snoozed := false, file := none })

/-- The snooze commit of `show_version_info` (lines 162-169): write
today's date as the sole content of the ignore file, overwriting any
existing record. -/
def snooze (today : Date) (st : CheckerState) : CheckerState :=
  { st with file := some (.parseable today) }

/-- What `show_version_info` sets the inline label to. -/
inductive LabelMsg
  | outdated
  | upToDate
  deriving DecidableEq

/-- Observable outcome of `show_version_info`: the label text, whether
the modal `QMessageBox` was shown, and the state afterwards. -/
structure ShowResult where
  label : LabelMsg
  dialogShown : Bool
  state : CheckerState
  deriving DecidableEq

/-- `UpdateChecker.show_version_info` (lines 140-175).  `remote` is the
yielded version, `my` the installed one; `ignoreClicked` is the user's
dialog choice when the dialog is shown. -/
def show_version_info (my remote : Version) (ignoreClicked : Bool)
    (today : Date) (st : CheckerState) : ShowResult :=
  if versionGt remote my then
    if st.snoozed then
      ⟨.outdated, false, st⟩
    else if ignoreClicked then
      ⟨.outdated, true, snooze today st⟩
    else
      ⟨.outdated, true, st⟩
  else
    ⟨.upToDate, false, st⟩

/-- One check cycle of `UpdateChecker.check` (lines 134-138): run
`_check_time` (its return value is ignored), then deliver the version
yielded by the worker to `show_version_info`. -/
def check_cycle (today : Date) (my remote : Version) (ignoreClicked : Bool)
    (st : CheckerState) : ShowResult :=
  show_version_info my remote ignoreClicked today (check_time today st).2

/-- "0.4.0" -/
def s040 : Str := ['0', '.', '4', '.', '0']
/-- "0.4.3" -/
def s043 : Str := ['0', '.', '4', '.', '3']
/-- "0.4.5" -/
def s045 : Str := ['0', '.', '4', '.', '5']
/-- "0.5.0" -/
def s050 : Str := ['0', '.', '5', '.', '0']

theorem relCmp_refl (a : Version) : relCmp a a = .eq := by
  induction a with
  | nil => rfl
  | cons x xs ih => simp [relCmp, ih]

theorem relCmp_swap (a b : Version) : relCmp a b = (relCmp b a).swap := by
  induction a generalizing b with
  | nil =>
    cases b with
    | nil => rfl
    | cons y ys => rfl
  | cons x xs ih =>
    cases b with
    | nil =>
      show cmpNil (x :: xs) = ((cmpNil (x :: xs)).swap).swap
      cases cmpNil (x :: xs) <;> rfl
    | cons y ys =>
      simp only [relCmp]
      rcases Nat.lt_trichotomy x y with h | h | h
      · rw [if_pos h, if_neg (Nat.lt_asymm h), if_pos h]; rfl
      · subst h
        rw [if_neg (Nat.lt_irrefl x), if_neg (Nat.lt_irrefl x),
          if_neg (Nat.lt_irrefl x), if_neg (Nat.lt_irrefl x)]
        exact ih ys
      · rw [if_neg (Nat.lt_asymm h), if_pos h, if_pos h]; rfl

/-- `get_latest_version` on two successful fetches whose last elements
parse: the body reduces to the comparison of the two parsed versions. -/
theorem glv_ok_ok (gh cf : List Str) (gS cS : Str) (g c : Version)
    (hg : gh.getLast? = some gS) (hc : cf.getLast? = some cS)
    (hpg : parseVersion gS = some g) (hpc : parseVersion cS = some c) :
    get_latest_version (.ok gh) (.ok cf) =
      if versionGt c g then ⟨0, 1, some (.condaForge, c), none⟩
      else ⟨0, 1, some (.github, g), none⟩ := by
  simp only [get_latest_version, hg, hc, hpg, hpc]

/-- C1: for every pair of successful fetch results whose last elements
parse, `get_latest_version` yields the greater of the two sources' latest
parsed versions, regardless of which source reported it: the yielded
version is one of the two, is not below either, and whenever one side is
strictly greater it is the one yielded. -/
theorem C1_selects_greater (gh cf : List Str) (gS cS : Str) (g c : Version)
    (hg : gh.getLast? = some gS) (hc : cf.getLast? = some cS)
    (hpg : parseVersion gS = some g) (hpc : parseVersion cS = some c) :
    ∃ sv : Source × Version,
      (get_latest_version (.ok gh) (.ok cf)).yielded = some sv ∧
      (sv.2 = g ∨ sv.2 = c) ∧
      relCmp sv.2 g ≠ .lt ∧ relCmp sv.2 c ≠ .lt ∧
      (relCmp g c = .gt → sv.2 = g) ∧ (relCmp c g = .gt → sv.2 = c) := by
  rw [glv_ok_ok gh cf gS cS g c hg hc hpg hpc]
  by_cases hgt : versionGt c g = true
  · rw [if_pos hgt]
    have hcg : relCmp c g = .gt := by simpa [versionGt] using hgt
    refine ⟨(.condaForge, c), rfl, Or.inr rfl, ?_, ?_, ?_, fun _ => rfl⟩
    · rw [hcg]; simp
    · rw [relCmp_refl]; simp
    · intro hgc
      have h2 : relCmp c g = .lt := by rw [relCmp_swap, hgc]; rfl
      exact absurd (h2.symm.trans hcg) (by decide)
  · rw [if_neg hgt]
    have hcg : relCmp c g ≠ .gt := by simpa [versionGt] using hgt
    refine ⟨(.github, g), rfl, Or.inl rfl, ?_, ?_, fun _ => rfl, ?_⟩
    · rw [relCmp_refl]; simp
    · intro hlt
      exact hcg (by rw [relCmp_swap, hlt]; rfl)
    · intro hcgt
      exact absurd hcgt hcg

/-- Witness for C1, on the spec's end-to-end example: installed "0.4.0",
catalog A (GitHub tags) latest "0.4.5", catalog B (conda-forge) latest
"0.4.3": the decision is update-available and the reported latest is
"0.4.5". -/
theorem C1_selects_greater_witness :
    (∃ sv : Source × Version,
      (get_latest_version (.ok [s045]) (.ok [s043])).yielded = some sv ∧
      (sv.2 = [0, 4, 5] ∨ sv.2 = [0, 4, 3]) ∧
      relCmp sv.2 [0, 4, 5] ≠ .lt ∧ relCmp sv.2 [0, 4, 3] ≠ .lt ∧
      (relCmp [0, 4, 5] [0, 4, 3] = .gt → sv.2 = [0, 4, 5]) ∧
      (relCmp [0, 4, 3] [0, 4, 5] = .gt → sv.2 = [0, 4, 3])) ∧
    (get_latest_version (.ok [s045]) (.ok [s043])).yielded =
      some (Source.github, [0, 4, 5]) ∧
    versionGt [0, 4, 5] [0, 4, 0] = true ∧
    (show_version_info [0, 4, 0] [0, 4, 5] false 0 ⟨false, none⟩).label =
      LabelMsg.outdated :=
  ⟨C1_selects_greater [s045] [s043] s045 s043 [0, 4, 5] [0, 4, 3]
      (by decide) (by decide) (by decide) (by decide),
    by decide, by decide, by decide⟩

/-- C2: if either fetch result is a network-layer error (`HTTPError` or
`URLError`), `get_latest_version` makes exactly one `show_warning` call,
yields no version at all, performs no version comparison, and raises no
exception. -/
theorem C2_network_error (ghResult cfResult : Except NetErr (List Str))
    (h : (∃ e, ghResult = .error e) ∨ (∃ e, cfResult = .error e)) :
    get_latest_version ghResult cfResult = ⟨1, 0, none, none⟩ := by
  rcases h with ⟨e, he⟩ | ⟨e, he⟩
  · subst he; rfl
  · subst he
    cases ghResult with
    | error e2 => rfl
    | ok gh => rfl

/-- Witness for C2: a failing GitHub fetch, and a failing conda-forge
fetch next to a successful GitHub one, each produce the
one-warning/no-value/no-comparison/no-raise outcome. -/
theorem C2_network_error_witness :
    get_latest_version (.error .httpError) (.ok [s050]) = ⟨1, 0, none, none⟩ ∧
    get_latest_version (.ok [s050]) (.error .urlError) = ⟨1, 0, none, none⟩ :=
  ⟨C2_network_error _ _ (Or.inl ⟨_, rfl⟩),
    C2_network_error _ _ (Or.inr ⟨_, rfl⟩)⟩

/-- C3: with a parseable date in the ignore file, `_check_time` returns
`True` and leaves the file in place when the record is strictly younger
than 21 days, and deletes the file and returns `False` when it is 21
days old or more. -/
theorem C3_snooze_window (st : CheckerState) (today old : Date)
    (hf : st.file = some (.parseable old)) :
    (today - old < 21 →
      check_time today st = (true, { st with snoozed := true })) ∧
    (21 ≤ today - old →
      check_time today st = (false, ⟨false, none⟩)) := by
  have h21 : IGNORE_DAYS = 21 := rfl
  constructor <;> intro h
  · have hlt : today - old < IGNORE_DAYS := by rw [h21]; exact h
    simp only [check_time, hf]
    rw [if_pos hlt]
  · have hge : ¬ today - old < IGNORE_DAYS := by
      rw [h21]; exact Int.not_lt.mpr h
    simp only [check_time, hf]
    rw [if_neg hge]

/-- Witness for C3: a 5-day-old record keeps the file and reports
snoozed; a 30-day-old record is deleted and reports not snoozed. -/
theorem C3_snooze_window_witness :
    check_time 5 ⟨false, some (.parseable 0)⟩ =
      (true, ⟨true, some (.parseable 0)⟩) ∧
    check_time 30 ⟨true, some (.parseable 0)⟩ = (false, ⟨false, none⟩) :=
  ⟨(C3_snooze_window ⟨false, some (.parseable 0)⟩ 5 0 rfl).1 (by decide),
    (C3_snooze_window ⟨true, some (.parseable 0)⟩ 30 0 rfl).2 (by decide)⟩

/-- C4: round trip of snooze-commit and snoozed-check: `snooze` writes
today's date as the sole content of the record (overwriting anything
there); immediately afterwards `_check_time` returns `True`; once the
current date is 21 or more days past the written date it returns
`False`. -/
theorem C4_snooze_roundtrip (st : CheckerState) (today now : Date) :
    (snooze today st).file = some (.parseable today) ∧
    (check_time today (snooze today st)).1 = true ∧
    (21 ≤ now - today → (check_time now (snooze today st)).1 = false) := by
  have h21 : IGNORE_DAYS = 21 := rfl
  refine ⟨rfl, ?_, ?_⟩
  · have hlt : today - today < IGNORE_DAYS := by
      rw [h21, Int.sub_self]; decide
    simp only [check_time, snooze]
    rw [if_pos hlt]
  · intro h
    have hge : ¬ now - today < IGNORE_DAYS := by
      rw [h21]; exact Int.not_lt.mpr h
    simp only [check_time, snooze]
    rw [if_neg hge]

/-- Witness for C4: snoozing on day 0 over a pre-existing corrupt record
overwrites it, reports snoozed the same day, and no longer snoozed on
day 21. -/
theorem C4_snooze_roundtrip_witness :
    (snooze 0 ⟨false, some .corrupt⟩).file = some (.parseable 0) ∧
    (check_time 0 (snooze 0 ⟨false, some .corrupt⟩)).1 = true ∧
    (check_time 21 (snooze 0 ⟨false, some .corrupt⟩)).1 = false :=
  ⟨(C4_snooze_roundtrip ⟨false, some .corrupt⟩ 0 21).1,
    (C4_snooze_roundtrip ⟨false, some .corrupt⟩ 0 21).2.1,
    (C4_snooze_roundtrip ⟨false, some .corrupt⟩ 0 21).2.2 (by decide)⟩

/-- C5: an ignore file whose content does not parse as an ISO date makes
`_check_time` return `False` without propagating the `ValueError`
(which `contextlib.suppress` swallows), and the corrupt file is
deleted. -/
theorem C5_corrupt_record (st : CheckerState) (today : Date)
    (hf : st.file = some .corrupt) :
    check_time today st = (false, { st with file := none }) := by
  simp [check_time, hf]

/-- Witness for C5: on a concrete state holding a corrupt record the
check returns `False` and removes the file. -/
theorem C5_corrupt_record_witness :
    check_time 7 ⟨true, some .corrupt⟩ = (false, ⟨true, none⟩) :=
  C5_corrupt_record ⟨true, some .corrupt⟩ 7 rfl

/-- C6: whenever the fetched latest version is greater than the
installed one, `show_version_info` always sets the inline label to the
update message, and shows the modal dialog if and only if the check is
not snoozed. -/
theorem C6_update_invariant (my remote : Version) (ic : Bool) (today : Date)
    (st : CheckerState) (h : versionGt remote my = true) :
    (show_version_info my remote ic today st).label = .outdated ∧
    (show_version_info my remote ic today st).dialogShown = !st.snoozed := by
  cases hs : st.snoozed <;> cases ic <;>
    simp [show_version_info, h, hs]

/-- Witness for C6: with latest "0.4.5" over installed "0.4.0", the
label carries the update message in both snooze states, and the dialog
is shown exactly in the un-snoozed one. -/
theorem C6_update_invariant_witness :
    ((show_version_info [0, 4, 0] [0, 4, 5] false 0 ⟨true, none⟩).label =
        .outdated ∧
      (show_version_info [0, 4, 0] [0, 4, 5] false 0 ⟨true, none⟩).dialogShown
        = !true) ∧
    ((show_version_info [0, 4, 0] [0, 4, 5] false 0 ⟨false, none⟩).label =
        .outdated ∧
      (show_version_info [0, 4, 0] [0, 4, 5] false 0 ⟨false, none⟩).dialogShown
        = !false) :=
  ⟨C6_update_invariant [0, 4, 0] [0, 4, 5] false 0 ⟨true, none⟩ (by decide),
    C6_update_invariant [0, 4, 0] [0, 4, 5] false 0 ⟨false, none⟩ (by decide)⟩

/-- C7: a "v"-prefixed version string is stripped of the prefix before
parsing — by `github_tags` for tag names, and by the parser itself — and
compares equal to its unprefixed form in the aggregator's version
comparison. -/
theorem C7_v_prefix (s : Str) (h : stripV s = s) :
    stripV ('v' :: s) = s ∧
    parseVersion ('v' :: s) = parseVersion s ∧
    github_tags_process [some ('v' :: s)] = [s] ∧
    (∀ v w, parseVersion ('v' :: s) = some v → parseVersion s = some w →
      relCmp v w = .eq) := by
  have hstrip : stripV ('v' :: s) = s := by simp [stripV]
  refine ⟨hstrip, ?_, ?_, ?_⟩
  · unfold parseVersion
    rw [hstrip, h]
  · simp [github_tags_process, hstrip]
  · intro v w hv hw
    rw [parseVersion, hstrip] at hv
    rw [parseVersion, h] at hw
    rw [hv] at hw
    cases hw
    exact relCmp_refl v

/-- Witness for C7 at "v0.5.0" versus "0.5.0". -/
theorem C7_v_prefix_witness :
    stripV ('v' :: s050) = s050 ∧
    parseVersion ('v' :: s050) = parseVersion s050 ∧
    github_tags_process [some ('v' :: s050)] = [s050] ∧
    (∀ v w, parseVersion ('v' :: s050) = some v →
      parseVersion s050 = some w → relCmp v w = .eq) :=
  C7_v_prefix s050 (by decide)

/-- C8 counterexample: when both catalogs report the exact same latest
version "0.5.0", `get_latest_version` yields the value taken from the
GitHub tags variable (`latest_tag`, the first source), not the one from
conda-forge, refuting the claim that ties favor the second source. -/
theorem C8_tie_counterexample :
    (get_latest_version (.ok [s050]) (.ok [s050])).yielded =
      some (Source.github, [0, 5, 0]) ∧
    (get_latest_version (.ok [s050]) (.ok [s050])).yielded ≠
      some (Source.condaForge, [0, 5, 0]) := by
  constructor <;> decide

/-- C8 amended: when both catalogs' latest parsed versions compare
equal, `get_latest_version` yields the value taken from the first
source (the GitHub tags list), because the strict test
`latest_version > latest_tag` fails on a tie and the `else` branch
yields `latest_tag`. -/
theorem C8_tie_favors_github (gh cf : List Str) (gS cS : Str) (g c : Version)
    (hg : gh.getLast? = some gS) (hc : cf.getLast? = some cS)
    (hpg : parseVersion gS = some g) (hpc : parseVersion cS = some c)
    (heq : relCmp c g = .eq) :
    (get_latest_version (.ok gh) (.ok cf)).yielded =
      some (Source.github, g) := by
  rw [glv_ok_ok gh cf gS cS g c hg hc hpg hpc]
  rw [if_neg (by simp [versionGt, heq])]

/-- Witness for the amended C8, at the tie "0.5.0" versus "0.5.0". -/
theorem C8_tie_favors_github_witness :
    (get_latest_version (.ok [s050]) (.ok [s050])).yielded =
      some (Source.github, [0, 5, 0]) :=
  C8_tie_favors_github [s050] [s050] s050 s050 [0, 5, 0] [0, 5, 0]
    (by decide) (by decide) (by decide) (by decide) (by decide)

/-- C9 counterexample: a check performed while the record file is absent
but with `_snoozed` still set from an earlier check (state
`⟨true, none⟩`) suppresses the modal dialog even though an update is
available ("0.4.5" over "0.4.0"), refuting the claim that an absent file
makes the check behave as not snoozed regardless of previous checks. -/
theorem C9_stale_snooze_counterexample :
    versionGt [0, 4, 5] [0, 4, 0] = true ∧
    (check_cycle 0 [0, 4, 0] [0, 4, 5] false ⟨true, none⟩).dialogShown =
      false := by
  constructor <;> decide

/-- C9 amended: when the record file is absent, `_check_time` returns
`False` and leaves the whole state — including the cached `_snoozed`
flag — unchanged; the modal dialog on that check is shown iff an update
is available and the cached flag is clear, so a snooze observed by an
earlier check in the same session still suppresses the dialog after the
file is removed externally. -/
theorem C9_absent_file (today : Date) (my remote : Version) (ic : Bool)
    (st : CheckerState) (hf : st.file = none) :
    check_time today st = (false, st) ∧
    (check_cycle today my remote ic st).dialogShown =
      (versionGt remote my && !st.snoozed) := by
  have h1 : check_time today st = (false, st) := by
    simp [check_time, hf]
  refine ⟨h1, ?_⟩
  rw [check_cycle, h1]
  cases hgt : versionGt remote my <;> cases hs : st.snoozed <;> cases ic <;>
    simp [show_version_info, hgt, hs]

/-- Witness for the amended C9: with the file absent and a stale
snoozed flag, the check leaves the state alone and the dialog is
suppressed. -/
theorem C9_absent_file_witness :
    check_time 0 ⟨true, none⟩ = (false, ⟨true, none⟩) ∧
    (check_cycle 0 [0, 4, 0] [0, 4, 5] false ⟨true, none⟩).dialogShown =
      (versionGt [0, 4, 5] [0, 4, 0] && !true) :=
  C9_absent_file 0 [0, 4, 0] [0, 4, 5] false ⟨true, none⟩ rfl

/-- C10: if both fetches succeed but either catalog's list is empty
(while whatever last element the other has parses), `get_latest_version`
raises an uncaught `IndexError` at the `[-1]` indexing: no warning is
surfaced, no version is yielded, and the failure is not absorbed by the
network-error handler. -/
theorem C10_empty_catalog_index_error (gh cf : List Str)
    (hc : ∀ t, cf.getLast? = some t → (parseVersion t).isSome = true)
    (h : gh = [] ∨ cf = []) :
    get_latest_version (.ok gh) (.ok cf) = ⟨0, 0, none, some .indexError⟩ := by
  cases hcf : cf.getLast? with
  | none => simp [get_latest_version, hcf]
  | some cS =>
    obtain ⟨v, hv⟩ := Option.isSome_iff_exists.mp (hc cS hcf)
    have hgh : gh = [] := by
      rcases h with h | h
      · exact h
      · subst h; simp at hcf
    subst hgh
    simp [get_latest_version, hcf, hv]

/-- Witness for C10: two successful fetches that both return empty lists
end in the uncaught `IndexError`, with no warning. -/
theorem C10_empty_catalog_index_error_witness :
    get_latest_version (.ok ([] : List Str)) (.ok ([] : List Str)) =
      ⟨0, 0, none, some .indexError⟩ :=
  C10_empty_catalog_index_error [] []
    (fun t ht => absurd ht (by simp)) (Or.inl rfl)

end UpdateChecker
